import Mathlib

/-!
Verification of the NotesApp repository (src/app.js): the note-listing
query pipeline of `GET "/"` (pagination, search, sort, owner scoping),
the login / token handlers, and the owner-scoped delete handler, shallowly
embedded as Lean definitions with theorems about them.
-/

namespace NotesApp

/-- Modelled from the spec: the Note schema (the file `models/notes.js` that
`app.js` requires is not present in the sources; spec section 3 describes a
note as title, content, optional media reference, owning user reference and a
creation timestamp). `id` models the unique `_id`, `user` the owner
reference, `createdAt` the creation timestamp. -/
structure Note where
  id : Nat
  user : Nat
  title : String
  content : String
  media : Option String
  createdAt : Nat
  deriving DecidableEq

/-- the User schema of src/models/user.js: unique username, unique email,
hashed password, age. `id` models `_id`; the `posts` back-references play no
role in the handlers under study. -/
structure User where
  id : Nat
  username : String
  email : String
  password : String
  age : Nat
  deriving DecidableEq

/-- the payload signed into a token by the login and register handlers:
`jwt.sign({ email: user.email, userid: user._id }, secret)`. -/
structure Claims where
  email : String
  userid : Nat
  deriving DecidableEq

/-- a token string as seen by jwt.sign / jwt.verify: either a well-formed
token carrying a payload and the secret it was signed with, or an arbitrary
malformed string. -/
inductive TokenString where
  | signed (payload : Claims) (secret : String)
  | malformed (raw : String)
  deriving DecidableEq

/-- jwt.sign: produce a token carrying the payload, bound to the secret. -/
def jwtSign (payload : Claims) (secret : String) : TokenString :=
  TokenString.signed payload secret

/-- jwt.verify: recover the payload when the token is well formed and was
signed with the same secret; `none` models the exception thrown on a
malformed token or a signature mismatch. -/
def jwtVerify (token : TokenString) (secret : String) : Option Claims :=
  match token with
  | TokenString.signed payload s => if s = secret then some payload else none
  | TokenString.malformed _ => none

/-- the token middleware of src/app.js lines 40-53: reads the `token`
cookie; on a present cookie it verifies and stores the decoded claims in
`res.locals.user`, with the catch branch storing `null`; an absent cookie
also yields `null`. The function is total: no failure escapes. -/
def tokenMiddleware (cookieToken : Option TokenString) (secret : String) :
    Option Claims :=
  match cookieToken with
  | some t => jwtVerify t secret
  | none => none

/-- outcome of the POST /login handler: a token cookie plus flash and
redirect on success, or a flash message and redirect on failure. -/
inductive LoginResult where
  | success (token : TokenString) (flashMsg redirectTo : String)
  | failure (flashMsg redirectTo : String)
  deriving DecidableEq

/-- the POST /login handler of src/app.js lines 132-156: find the user by
email; absent user or a failed bcrypt comparison both flash
"Invalid email or password" and redirect to /login; a match signs
`{email, userid}` and redirects home. `compare` abstracts
`bcrypt.compare (raw, storedHash)`. -/
def login (compare : String → String → Bool) (secret : String)
    (users : List User) (email password : String) : LoginResult :=
  match users.find? (fun u => u.email == email) with
  | none => LoginResult.failure "Invalid email or password" "/login"
  | some user =>
    if compare password user.password then
      LoginResult.success (jwtSign ⟨user.email, user.id⟩ secret)
        "Logged in successfully" "/"
    else
      LoginResult.failure "Invalid email or password" "/login"

/-- decimal digits at the head of a character list. -/
def leadingDigits (cs : List Char) : List Char :=
  cs.takeWhile Char.isDigit

/-- numeric value of a list of decimal digits. -/
def digitsToNat (cs : List Char) : Nat :=
  cs.foldl (fun acc c => acc * 10 + (c.toNat - 48)) 0

/-- Model of the JavaScript `parseInt` builtin on the decimal fragment the
handler exercises: skip leading whitespace, an optional sign, then the
longest run of decimal digits; `none` models `NaN` (no digits). The `0x`
auto-radix corner of `parseInt` is outside the model. -/
def parseIntJS (s : String) : Option Int :=
  match s.data.dropWhile Char.isWhitespace with
  | '-' :: rest =>
    if (leadingDigits rest).isEmpty then none
    else some (-(digitsToNat (leadingDigits rest) : Int))
  | '+' :: rest =>
    if (leadingDigits rest).isEmpty then none
    else some ((digitsToNat (leadingDigits rest) : Int))
  | rest =>
    if (leadingDigits rest).isEmpty then none
    else some ((digitsToNat (leadingDigits rest) : Int))

/-- the JavaScript idiom `x || d` applied to a number: `NaN` (here `none`)
and `0` are falsy and give the default, every other number is kept —
including negative ones. -/
def jsOrInt (v : Option Int) (dflt : Int) : Int :=
  match v with
  | none => dflt
  | some n => if n = 0 then dflt else n

/-- src/app.js line 190: `let page = parseInt(req.query.page) || 1;` with an
absent query parameter giving `parseInt(undefined) = NaN`. -/
def effectivePage (pageParam : Option String) : Int :=
  jsOrInt (pageParam.bind parseIntJS) 1

/-- src/app.js line 192: `let sort = req.query.sort || 'newest';` — an
absent or empty (falsy) parameter defaults to "newest". -/
def sortName (sortParam : Option String) : String :=
  match sortParam with
  | none => "newest"
  | some s => if s = "" then "newest" else s

/-- Model of the JavaScript `String.prototype.trim`: strip whitespace from
both ends. -/
def trimJS (s : String) : String :=
  ⟨((s.data.dropWhile Char.isWhitespace).reverse.dropWhile
    Char.isWhitespace).reverse⟩

/-- src/app.js line 193: `let search = req.query.search ?
req.query.search.trim() : '';` — a truthy (non-empty) parameter is
trimmed, otherwise the empty string. -/
def searchTermOf (searchParam : Option String) : String :=
  match searchParam with
  | none => ""
  | some s => if s = "" then "" else trimJS s

/-- src/app.js lines 195-197: `sortOptions` is `{createdAt: -1}` by default
and `{createdAt: 1}` exactly when the sort value is "oldest"; the result is
the direction on the `createdAt` key. -/
def sortOptions (sort : String) : Int :=
  if sort = "oldest" then 1 else -1

/-- a compiled token of `new RegExp(pattern, 'i')`. -/
inductive RTok where
  | lit (c : Char)
  | dot
  deriving DecidableEq

/-- Model of JavaScript `new RegExp(pattern, 'i')` compilation on the
fragment this development exercises: every character is a literal except
`.`, the any-character wildcard. Patterns using other JS regex
metacharacters are outside the model (an invalid pattern such as "(" even
throws in JS, which the handler's catch turns into a 500 response). -/
def compileRegExp (pattern : String) : List RTok :=
  pattern.data.map (fun c => if c = '.' then RTok.dot else RTok.lit c)

/-- match of one token against one character; the case fold models the `'i'`
flag the handler always passes. -/
def tokMatches (t : RTok) (c : Char) : Bool :=
  match t with
  | RTok.dot => true
  | RTok.lit a => a.toLower == c.toLower

/-- the compiled pattern matches at the very start of the text. -/
def matchHere : List RTok → List Char → Bool
  | [], _ => true
  | _ :: _, [] => false
  | t :: ts, c :: cs => tokMatches t c && matchHere ts cs

/-- the compiled pattern matches at some position of the text. -/
def regexSearch (pat : List RTok) : List Char → Bool
  | [] => matchHere pat []
  | c :: cs => matchHere pat (c :: cs) || regexSearch pat cs

/-- `regex.test(s)` for the compiled pattern. -/
def regexTest (pat : List RTok) (s : String) : Bool :=
  regexSearch pat s.data

/-- the Mongo query object built in src/app.js lines 212-217: always
`{ user: userid }`, and when the (already trimmed) search term is non-empty
also `$or: [{title: regex}, {content: regex}]` with
`regex = new RegExp(search, 'i')`. -/
def noteMatches (userid : Nat) (search : String) (n : Note) : Bool :=
  n.user == userid &&
    (search == "" ||
      (regexTest (compileRegExp search) n.title ||
        regexTest (compileRegExp search) n.content))

/-- the data rendered by the index view: the page slice plus the counters
and the echoed sort and search values. -/
structure Listing where
  notes : List Note
  currentPage : Int
  totalPages : Nat
  totalNotes : Nat
  sort : String
  search : String
  deriving DecidableEq

/-- comparison on the `createdAt` key in a sort direction: ascending when
the direction is 1 (sort "oldest"), descending otherwise. -/
def keyLE (dir : Int) (a b : Note) : Bool :=
  if dir = 1 then a.createdAt ≤ b.createdAt else b.createdAt ≤ a.createdAt

/-- the sequence is non-strictly ordered on `createdAt` in the given
direction: all a MongoDB sort on the single key `createdAt` guarantees. -/
def mongoSorted (dir : Int) : List Note → Bool
  | [] => true
  | [_] => true
  | a :: b :: rest => keyLE dir a b && mongoSorted dir (b :: rest)

/-- Model of the MongoDB contract for `find(query).sort({createdAt: dir})`:
the returned sequence is some permutation of the matching documents that is
non-strictly ordered on the sort key. The relative order of documents with
equal `createdAt` is unspecified by MongoDB (no secondary key is given), so
this is a relation, not a function. -/
def sortOutcome (dir : Int) (matching sorted : List Note) : Prop :=
  sorted.Perm matching ∧ mongoSorted dir sorted = true

/-- src/app.js line 219: `const totalNotes = await Note.countDocuments(query);`
— the number of documents matching the owner-and-search query. -/
def totalNotesOf (store : List Note) (userid : Nat) (search : String) : Nat :=
  (store.filter (noteMatches userid search)).length

/-- src/app.js line 220: `const totalPages = Math.ceil(totalNotes / limit);`
with the fixed `limit = 5`. -/
def totalPagesOf (store : List Note) (userid : Nat) (search : String) : Nat :=
  (totalNotesOf store userid search + 4) / 5

/-- src/app.js line 222: `if (totalPages > 0 && page > totalPages) page =
totalPages;` — the effective page after clamping. The clamp only ever lowers
a too-large page; pages below 1 pass through untouched. -/
def clampedPage (store : List Note) (userid : Nat) (search : String)
    (page : Int) : Int :=
  if 0 < totalPagesOf store userid search ∧
      (totalPagesOf store userid search : Int) < page
  then (totalPagesOf store userid search : Int) else page

/-- the authenticated branch of `GET "/"` (src/app.js lines 212-236), after
parameter defaulting: count the matching documents, compute the total page
count, clamp the page, then take the page slice
`skip((page - 1) * 5).limit(5)` of a sort outcome. A negative skip (the
clamp never raises a page, so a negative page survives to here) is rejected
by MongoDB; the handler's catch turns that into a 500 response, modelled as
`out = none`. -/
def listOutcome (store : List Note) (userid : Nat) (page : Int)
    (sort search : String) (out : Option Listing) : Prop :=
  ((clampedPage store userid search page - 1) * 5 < 0 ∧ out = none) ∨
    (0 ≤ (clampedPage store userid search page - 1) * 5 ∧
      ∃ sorted,
        sortOutcome (sortOptions sort) (store.filter (noteMatches userid search))
          sorted ∧
        out = some
          ⟨(sorted.drop ((clampedPage store userid search page - 1) * 5).toNat).take 5,
            clampedPage store userid search page,
            totalPagesOf store userid search,
            totalNotesOf store userid search, sort, search⟩)

/-- the whole `GET "/"` handler: parameter defaulting (src/app.js lines
190-193), then either the anonymous early return of lines 201-210
(empty listing, currentPage 1, totalPages 0) or the authenticated query
pipeline. -/
def indexHandler (store : List Note) (user : Option Claims)
    (pageParam sortParam searchParam : Option String)
    (out : Option Listing) : Prop :=
  let page := effectivePage pageParam
  let sort := sortName sortParam
  let search := searchTermOf searchParam
  match user with
  | none => out = some ⟨[], 1, 0, 0, sort, search⟩
  | some u => listOutcome store u.userid page sort search out

/-- a flash message (kind and text) together with the redirect target. -/
structure Response where
  flashKind : String
  flashMsg : String
  redirectTo : String
  deriving DecidableEq

/-- `Note.findOneAndDelete({ _id: id, user: userid })`: delete the first
document matching both the id and the owner in one atomic query, returning
the deleted document (or `none`) and the store after the call. -/
def findOneAndDelete : List Note → Nat → Nat → Option Note × List Note
  | [], _, _ => (none, [])
  | n :: rest, id, userid =>
    if n.id == id && n.user == userid then (some n, rest)
    else
      let r := findOneAndDelete rest id userid
      (r.1, n :: r.2)

/-- the POST /delete/:id handler of src/app.js lines 267-284: a miss
flashes "Note not found" and redirects home, a hit flashes "Note deleted"
and redirects home; the store after the call is returned alongside. -/
def deleteHandler (store : List Note) (id userid : Nat) :
    Response × List Note :=
  match findOneAndDelete store id userid with
  | (none, store1) => (⟨"error", "Note not found", "/"⟩, store1)
  | (some _, store1) => (⟨"success", "Note deleted", "/"⟩, store1)

/-- Spec-side definition, following the spec's words for search ("substring
match", case-insensitive): needle starts the text. Used only to compare the
spec's substring semantics with the code's regex semantics. -/
def startsWithChars : List Char → List Char → Bool
  | [], _ => true
  | _ :: _, [] => false
  | a :: as, b :: bs => a == b && startsWithChars as bs

/-- Spec-side definition: needle occurs at some position of the text. -/
def substrChars (needle : List Char) : List Char → Bool
  | [] => needle.isEmpty
  | c :: cs => startsWithChars needle (c :: cs) || substrChars needle cs

/-- Spec-side definition: case-insensitive substring containment, the
search semantics the spec describes. -/
def specContainsCI (needle hay : String) : Bool :=
  substrChars (needle.data.map Char.toLower) (hay.data.map Char.toLower)

instance (l₁ l₂ : List Note) : Decidable (l₁.Perm l₂) :=
  decidable_of_iff _ List.isPerm_iff

/-! Helper lemmas about the embedded definitions. -/

lemma mongoSorted_iff_chain (dir : Int) (l : List Note) :
    mongoSorted dir l = true ↔ l.Chain' (fun a b => keyLE dir a b = true) := by
  induction l with
  | nil => simp [mongoSorted]
  | cons a t ih =>
    cases t with
    | nil => simp [mongoSorted]
    | cons b t' =>
      rw [List.chain'_cons, ← ih]
      simp [mongoSorted]

/-- a sort outcome is fully determined once the creation timestamps are
pairwise distinct: two permutations of each other that are both ordered on
`createdAt` in the same direction coincide. -/
lemma sorted_unique (dir : Int) {l₁ l₂ : List Note}
    (hperm : l₁.Perm l₂)
    (h₁ : mongoSorted dir l₁ = true) (h₂ : mongoSorted dir l₂ = true)
    (hnd : l₁.Pairwise (fun a b => a.createdAt ≠ b.createdAt)) :
    l₁ = l₂ := by
  haveI : IsTrans Note (fun a b : Note => keyLE dir a b = true) := by
    refine ⟨fun a b c hab hbc => ?_⟩
    by_cases hd : dir = 1 <;> simp [keyLE, hd] at hab hbc ⊢ <;> omega
  have hp₁ : l₁.Pairwise (fun a b => keyLE dir a b = true) :=
    List.chain'_iff_pairwise.mp ((mongoSorted_iff_chain dir l₁).mp h₁)
  have hp₂ : l₂.Pairwise (fun a b => keyLE dir a b = true) :=
    List.chain'_iff_pairwise.mp ((mongoSorted_iff_chain dir l₂).mp h₂)
  have hnd₂ : l₂.Pairwise (fun a b => a.createdAt ≠ b.createdAt) :=
    hnd.perm hperm (fun h => h.symm)
  haveI : IsAntisymm Note (fun a b : Note =>
      if dir = 1 then a.createdAt < b.createdAt else b.createdAt < a.createdAt) := by
    refine ⟨fun a b hab hba => ?_⟩
    exfalso
    by_cases hd : dir = 1 <;> simp [hd] at hab hba <;> omega
  have hs₁ : l₁.Pairwise (fun a b : Note =>
      if dir = 1 then a.createdAt < b.createdAt else b.createdAt < a.createdAt) := by
    refine (hp₁.and hnd).imp ?_
    rintro a b ⟨hle, hne⟩
    by_cases hd : dir = 1 <;> simp [keyLE, hd] at hle ⊢ <;> omega
  have hs₂ : l₂.Pairwise (fun a b : Note =>
      if dir = 1 then a.createdAt < b.createdAt else b.createdAt < a.createdAt) := by
    refine (hp₂.and hnd₂).imp ?_
    rintro a b ⟨hle, hne⟩
    by_cases hd : dir = 1 <;> simp [keyLE, hd] at hle ⊢ <;> omega
  exact List.eq_of_perm_of_sorted hperm hs₁ hs₂

lemma sortOutcome_eq (dir : Int) {matching c₁ c₂ : List Note}
    (h₁ : sortOutcome dir matching c₁) (h₂ : sortOutcome dir matching c₂)
    (hnd : c₁.Pairwise (fun a b => a.createdAt ≠ b.createdAt)) : c₁ = c₂ :=
  sorted_unique dir (h₁.1.trans h₂.1.symm) h₁.2 h₂.2 hnd

lemma mem_listOutcome_user {store : List Note} {userid : Nat} {page : Int}
    {sort search : String} {L : Listing}
    (h : listOutcome store userid page sort search (some L)) :
    ∀ n ∈ L.notes, n.user = userid := by
  unfold listOutcome at h
  rcases h with ⟨_, hnone⟩ | ⟨_, sorted, ⟨hperm, _⟩, hout⟩
  · cases hnone
  · injection hout with hout
    subst hout
    intro n hn
    have hs : n ∈ sorted :=
      List.drop_subset _ _ (List.take_subset _ _ hn)
    have hf : n ∈ store.filter (noteMatches userid search) :=
      hperm.mem_iff.mp hs
    have := (List.mem_filter.mp hf).2
    simp [noteMatches] at this
    exact this.1

lemma findOneAndDelete_miss (store : List Note) (id userid : Nat)
    (h : ∀ n ∈ store, ¬(n.id = id ∧ n.user = userid)) :
    findOneAndDelete store id userid = (none, store) := by
  induction store with
  | nil => rfl
  | cons a t ih =>
    have ha := h a (by simp)
    have hcond : (a.id == id && a.user == userid) = false := by
      by_cases h1 : a.id = id
      · by_cases h2 : a.user = userid
        · exact absurd ⟨h1, h2⟩ ha
        · simp [h2]
      · simp [h1]
    unfold findOneAndDelete
    rw [hcond]
    simp [ih (fun n hn => h n (List.mem_cons_of_mem _ hn))]

lemma clampedPage_one (store : List Note) (userid : Nat) (search : String) :
    clampedPage store userid search 1 = 1 := by
  unfold clampedPage
  split <;> omega

/-- when the whole matching set fits on one page and its timestamps are
pairwise distinct, the page-1 outcome is uniquely determined. -/
lemma listOutcome_one_iff (store : List Note) (userid : Nat)
    (sort search : String) (canon : List Note)
    (hcanon : sortOutcome (sortOptions sort)
      (store.filter (noteMatches userid search)) canon)
    (hnd : canon.Pairwise (fun a b => a.createdAt ≠ b.createdAt))
    (hlen : canon.length ≤ 5) :
    ∀ out, listOutcome store userid 1 sort search out ↔
      out = some ⟨canon, 1, totalPagesOf store userid search,
        totalNotesOf store userid search, sort, search⟩ := by
  intro out
  have hcp := clampedPage_one store userid search
  have h0 : (((1 : Int) - 1) * 5).toNat = 0 := by norm_num
  constructor
  · intro h
    unfold listOutcome at h
    rw [hcp] at h
    rcases h with ⟨hneg, _⟩ | ⟨_, sorted, hso, hout⟩
    · exfalso; omega
    · have hc : canon = sorted := sortOutcome_eq _ hcanon hso hnd
      rw [← hc] at hout
      rw [h0, List.drop_zero, List.take_of_length_le hlen] at hout
      exact hout
  · rintro rfl
    unfold listOutcome
    rw [hcp]
    refine Or.inr ⟨by norm_num, canon, hcanon, ?_⟩
    rw [h0, List.drop_zero, List.take_of_length_le hlen]

/-! Claim theorems. -/

/-- C1: owner scoping of the listing — for every authenticated call to
`GET "/"` with identity `c`, every note in the rendered items is owned by
`c.userid`, and no note of another owner ever appears, for every
combination of page, sort and search parameters. -/
theorem C1_owner_scoping (store : List Note) (c : Claims)
    (pp sp qp : Option String) (out : Option Listing) (L : Listing)
    (h : indexHandler store (some c) pp sp qp out) (hL : out = some L) :
    (∀ n ∈ L.notes, n.user = c.userid) ∧
    (∀ n ∈ store, n.user ≠ c.userid → n ∉ L.notes) := by
  subst hL
  have h' : listOutcome store c.userid (effectivePage pp) (sortName sp)
      (searchTermOf qp) (some L) := h
  have hmem := mem_listOutcome_user h'
  exact ⟨hmem, fun n _ hne hmemL => hne (hmem n hmemL)⟩

theorem C1_owner_scoping_witness :
    (∀ n ∈ ([⟨1, 7, "a", "c", none, 1⟩] : List Note),
      n.user = (⟨"a@x", 7⟩ : Claims).userid) ∧
    (∀ n ∈ [(⟨1, 7, "a", "c", none, 1⟩ : Note), ⟨2, 8, "b", "d", none, 2⟩],
      n.user ≠ (⟨"a@x", 7⟩ : Claims).userid →
      n ∉ ([⟨1, 7, "a", "c", none, 1⟩] : List Note)) := by
  have hlo : listOutcome [(⟨1, 7, "a", "c", none, 1⟩ : Note), ⟨2, 8, "b", "d", none, 2⟩]
      7 1 "newest" ""
      (some ⟨[⟨1, 7, "a", "c", none, 1⟩], 1, 1, 1, "newest", ""⟩) := by
    unfold listOutcome
    exact Or.inr ⟨by decide, [⟨1, 7, "a", "c", none, 1⟩], ⟨by decide, by decide⟩, by decide⟩
  exact C1_owner_scoping [⟨1, 7, "a", "c", none, 1⟩, ⟨2, 8, "b", "d", none, 2⟩]
    ⟨"a@x", 7⟩ none none none
    (some ⟨[⟨1, 7, "a", "c", none, 1⟩], 1, 1, 1, "newest", ""⟩)
    ⟨[⟨1, 7, "a", "c", none, 1⟩], 1, 1, 1, "newest", ""⟩ hlo rfl

/-- C4 counterexample: the claim says the effective page is 1 whenever the
supplied page parameter is less than 1, but a supplied "-3" parses to -3,
which is below 1 and kept as the effective page, not replaced by 1. -/
theorem C4_counterexample :
    parseIntJS "-3" = some (-3) ∧ (-3 : Int) < 1 ∧
    effectivePage (some "-3") = -3 ∧ ¬ effectivePage (some "-3") = 1 := by
  decide

/-- C4 (amended): the effective page number is 1 whenever the supplied page
parameter is absent, non-numeric, or parses to 0; a parameter parsing to any
other value — including negative values, which the claim said would default
to 1 — is used as supplied. -/
theorem C4_page_defaulting (pp : Option String) :
    (pp = none → effectivePage pp = 1) ∧
    (∀ s, pp = some s → parseIntJS s = none → effectivePage pp = 1) ∧
    (∀ s, pp = some s → parseIntJS s = some 0 → effectivePage pp = 1) ∧
    (∀ s n, pp = some s → parseIntJS s = some n → n ≠ 0 →
      effectivePage pp = n) := by
  refine ⟨?_, ?_, ?_, ?_⟩
  · rintro rfl; rfl
  · rintro s rfl hp; simp [effectivePage, jsOrInt, hp]
  · rintro s rfl hp; simp [effectivePage, jsOrInt, hp]
  · rintro s n rfl hp hn; simp [effectivePage, jsOrInt, hp, hn]

theorem C4_page_defaulting_witness :
    effectivePage none = 1 ∧ effectivePage (some "abc") = 1 ∧
    effectivePage (some "0") = 1 ∧ effectivePage (some "-3") = -3 ∧
    effectivePage (some "7") = 7 :=
  ⟨(C4_page_defaulting none).1 rfl,
    (C4_page_defaulting (some "abc")).2.1 "abc" rfl (by decide),
    (C4_page_defaulting (some "0")).2.2.1 "0" rfl (by decide),
    (C4_page_defaulting (some "-3")).2.2.2 "-3" (-3) rfl (by decide) (by decide),
    (C4_page_defaulting (some "7")).2.2.2 "7" 7 rfl (by decide) (by decide)⟩

/-- C6: deleting a note whose id exists in the store but is owned by a
different user flashes the NotFound outcome ("Note not found", redirect to
"/"), leaves the store unchanged, and is indistinguishable from deleting a
nonexistent id. -/
theorem C6_delete_owner_scoped (store : List Note) (id mid userid : Nat)
    (hex : ∃ n ∈ store, n.id = id)
    (hown : ∀ n ∈ store, n.id = id → n.user ≠ userid)
    (hmid : ∀ n ∈ store, n.id ≠ mid) :
    deleteHandler store id userid = (⟨"error", "Note not found", "/"⟩, store) ∧
    deleteHandler store mid userid = deleteHandler store id userid := by
  have h1 : findOneAndDelete store id userid = (none, store) :=
    findOneAndDelete_miss store id userid
      (fun n hn hc => hown n hn hc.1 hc.2)
  have h2 : findOneAndDelete store mid userid = (none, store) :=
    findOneAndDelete_miss store mid userid
      (fun n hn hc => hmid n hn hc.1)
  constructor
  · unfold deleteHandler
    rw [h1]
  · unfold deleteHandler
    rw [h1, h2]

theorem C6_delete_owner_scoped_witness :
    deleteHandler [⟨1, 9, "t", "c", none, 0⟩] 1 7 =
      (⟨"error", "Note not found", "/"⟩, [⟨1, 9, "t", "c", none, 0⟩]) ∧
    deleteHandler [⟨1, 9, "t", "c", none, 0⟩] 99 7 =
      deleteHandler [⟨1, 9, "t", "c", none, 0⟩] 1 7 :=
  C6_delete_owner_scoped [⟨1, 9, "t", "c", none, 0⟩] 1 99 7
    (by decide) (by decide) (by decide)

/-- C7: credential-failure collapsing — a login attempt failing because no
user has the given email and one failing because the stored hash does not
match produce one and the same outcome: flash "Invalid email or password"
and redirect to "/login". -/
theorem C7_credential_collapse (compare : String → String → Bool)
    (secret : String) (users : List User) (email1 pw1 email2 pw2 : String)
    (u : User)
    (h1 : users.find? (fun x => x.email == email1) = none)
    (h2 : users.find? (fun x => x.email == email2) = some u)
    (h3 : compare pw2 u.password = false) :
    login compare secret users email1 pw1 =
      LoginResult.failure "Invalid email or password" "/login" ∧
    login compare secret users email2 pw2 =
      LoginResult.failure "Invalid email or password" "/login" ∧
    login compare secret users email2 pw2 =
      login compare secret users email1 pw1 := by
  unfold login
  rw [h1, h2]
  simp [h3]

theorem C7_credential_collapse_witness :
    login (fun a b => a == b) "s" [⟨1, "alice", "a@x", "HASH", 30⟩] "b@x" "pw" =
      LoginResult.failure "Invalid email or password" "/login" ∧
    login (fun a b => a == b) "s" [⟨1, "alice", "a@x", "HASH", 30⟩] "a@x" "bad" =
      LoginResult.failure "Invalid email or password" "/login" ∧
    login (fun a b => a == b) "s" [⟨1, "alice", "a@x", "HASH", 30⟩] "a@x" "bad" =
      login (fun a b => a == b) "s" [⟨1, "alice", "a@x", "HASH", 30⟩] "b@x" "pw" :=
  C7_credential_collapse (fun a b => a == b) "s" [⟨1, "alice", "a@x", "HASH", 30⟩]
    "b@x" "pw" "a@x" "bad" ⟨1, "alice", "a@x", "HASH", 30⟩
    (by decide) (by decide) (by decide)

/-- C8: token round-trip — a successful login issues the token signing
`{email, userid}` of the found user, and the request pipeline's verifier
with the same secret recovers exactly those claims; any token that fails
verification yields the identity-absent result (`none`), as does an absent
cookie, and the middleware is total, never failing the request. -/
theorem C8_token_roundtrip (compare : String → String → Bool)
    (secret : String) (users : List User) (email pw : String) (u : User)
    (hfind : users.find? (fun x => x.email == email) = some u)
    (hcmp : compare pw u.password = true) :
    login compare secret users email pw =
      LoginResult.success (jwtSign ⟨u.email, u.id⟩ secret)
        "Logged in successfully" "/" ∧
    jwtVerify (jwtSign ⟨u.email, u.id⟩ secret) secret = some ⟨u.email, u.id⟩ ∧
    tokenMiddleware (some (jwtSign ⟨u.email, u.id⟩ secret)) secret =
      some ⟨u.email, u.id⟩ ∧
    (∀ t, jwtVerify t secret = none → tokenMiddleware (some t) secret = none) ∧
    tokenMiddleware none secret = none := by
  refine ⟨?_, ?_, ?_, ?_, rfl⟩
  · unfold login
    rw [hfind]
    simp [hcmp, jwtSign]
  · simp [jwtVerify, jwtSign]
  · simp [tokenMiddleware, jwtVerify, jwtSign]
  · intro t ht
    simp [tokenMiddleware, ht]

theorem C8_token_roundtrip_witness :
    login (fun a b => a == b) "s" [⟨1, "alice", "a@x", "HASH", 30⟩] "a@x" "HASH" =
      LoginResult.success (jwtSign ⟨"a@x", 1⟩ "s") "Logged in successfully" "/" ∧
    tokenMiddleware (some (jwtSign ⟨"a@x", 1⟩ "s")) "s" = some ⟨"a@x", 1⟩ ∧
    tokenMiddleware (some (TokenString.malformed "zz")) "s" = none ∧
    tokenMiddleware (some (TokenString.signed ⟨"a@x", 1⟩ "other")) "s" = none := by
  have H := C8_token_roundtrip (fun a b => a == b) "s"
    [⟨1, "alice", "a@x", "HASH", 30⟩] "a@x" "HASH" ⟨1, "alice", "a@x", "HASH", 30⟩
    (by decide) (by decide)
  exact ⟨H.1, H.2.2.1, H.2.2.2.1 (TokenString.malformed "zz") rfl,
    H.2.2.2.1 (TokenString.signed ⟨"a@x", 1⟩ "other") (by decide)⟩

/-- C5: sort modes — the default sort value is "newest", every value other
than "oldest" yields the same sort direction as "newest" ("newest" maps to
descending -1, "oldest" to ascending 1), and on three same-owner notes
created at times t1 < t2 < t3 the sort "oldest" listing is exactly
[t1, t2, t3] while "newest" is exactly [t3, t2, t1]. -/
theorem C5_sort_modes (s : String) (userid : Nat) (n1 n2 n3 : Note)
    (hs : s ≠ "oldest")
    (h1 : n1.user = userid) (h2 : n2.user = userid) (h3 : n3.user = userid)
    (t12 : n1.createdAt < n2.createdAt) (t23 : n2.createdAt < n3.createdAt) :
    sortName none = "newest" ∧
    sortOptions s = sortOptions "newest" ∧
    sortOptions "newest" = -1 ∧ sortOptions "oldest" = 1 ∧
    (∀ out, listOutcome [n1, n2, n3] userid 1 "oldest" "" out ↔
      out = some ⟨[n1, n2, n3], 1, 1, 3, "oldest", ""⟩) ∧
    (∀ out, listOutcome [n1, n2, n3] userid 1 "newest" "" out ↔
      out = some ⟨[n3, n2, n1], 1, 1, 3, "newest", ""⟩) := by
  have hfilter : [n1, n2, n3].filter (noteMatches userid "") = [n1, n2, n3] := by
    simp [noteMatches, h1, h2, h3]
  have htn : totalNotesOf [n1, n2, n3] userid "" = 3 := by
    unfold totalNotesOf
    rw [hfilter]
    rfl
  have htp : totalPagesOf [n1, n2, n3] userid "" = 1 := by
    unfold totalPagesOf
    rw [htn]
  refine ⟨rfl, by simp [sortOptions, hs], rfl, rfl, ?_, ?_⟩
  · have hcanon : sortOutcome (sortOptions "oldest")
        ([n1, n2, n3].filter (noteMatches userid "")) [n1, n2, n3] := by
      rw [hfilter]
      refine ⟨List.Perm.refl _, ?_⟩
      simp [mongoSorted, keyLE, sortOptions]
      omega
    have hnd : ([n1, n2, n3] : List Note).Pairwise
        (fun a b => a.createdAt ≠ b.createdAt) := by
      simp [List.pairwise_cons]
      omega
    intro out
    rw [listOutcome_one_iff _ _ _ _ _ hcanon hnd (by simp) out, htn, htp]
  · have hcanon : sortOutcome (sortOptions "newest")
        ([n1, n2, n3].filter (noteMatches userid "")) [n3, n2, n1] := by
      rw [hfilter]
      refine ⟨List.reverse_perm [n1, n2, n3], ?_⟩
      simp [mongoSorted, keyLE, sortOptions]
      omega
    have hnd : ([n3, n2, n1] : List Note).Pairwise
        (fun a b => a.createdAt ≠ b.createdAt) := by
      simp [List.pairwise_cons]
      omega
    intro out
    rw [listOutcome_one_iff _ _ _ _ _ hcanon hnd (by simp) out, htn, htp]

theorem C5_sort_modes_witness :
    listOutcome [⟨1, 7, "a", "", none, 1⟩, ⟨2, 7, "b", "", none, 2⟩,
        ⟨3, 7, "c", "", none, 3⟩] 7 1 "oldest" ""
      (some ⟨[⟨1, 7, "a", "", none, 1⟩, ⟨2, 7, "b", "", none, 2⟩,
        ⟨3, 7, "c", "", none, 3⟩], 1, 1, 3, "oldest", ""⟩) ∧
    listOutcome [⟨1, 7, "a", "", none, 1⟩, ⟨2, 7, "b", "", none, 2⟩,
        ⟨3, 7, "c", "", none, 3⟩] 7 1 "newest" ""
      (some ⟨[⟨3, 7, "c", "", none, 3⟩, ⟨2, 7, "b", "", none, 2⟩,
        ⟨1, 7, "a", "", none, 1⟩], 1, 1, 3, "newest", ""⟩) ∧
    sortOptions "banana" = sortOptions "newest" := by
  have H := C5_sort_modes "banana" 7 ⟨1, 7, "a", "", none, 1⟩
    ⟨2, 7, "b", "", none, 2⟩ ⟨3, 7, "c", "", none, 3⟩
    (by decide) rfl rfl rfl (by decide) (by decide)
  exact ⟨(H.2.2.2.2.1 _).mpr rfl, (H.2.2.2.2.2 _).mpr rfl, H.2.1⟩

/-- C10: implicit — when the owner-scoped and search-filtered set is empty
(totalNotes = 0, totalPages = 0) the clamp does not apply and the rendered
listing reports currentPage equal to the effective requested page, possibly
greater than 1, with an empty items list; the anonymous branch instead
always renders currentPage = 1 with an empty list. -/
theorem C10_no_clamp_when_empty (store : List Note) (userid : Nat)
    (page : Int) (sort search : String)
    (hemp : store.filter (noteMatches userid search) = [])
    (hpage : 1 ≤ page) :
    (∀ out, listOutcome store userid page sort search out ↔
      out = some ⟨[], page, 0, 0, sort, search⟩) ∧
    (∀ pp sp qp out, indexHandler store none pp sp qp out →
      out = some ⟨[], 1, 0, 0, sortName sp, searchTermOf qp⟩) := by
  have htn : totalNotesOf store userid search = 0 := by
    unfold totalNotesOf
    rw [hemp]
    rfl
  have htp : totalPagesOf store userid search = 0 := by
    unfold totalPagesOf
    rw [htn]
  have hcp : clampedPage store userid search page = page := by
    unfold clampedPage
    split <;> omega
  constructor
  · intro out
    constructor
    · intro h
      unfold listOutcome at h
      rw [hcp] at h
      rcases h with ⟨hneg, _⟩ | ⟨_, sorted, ⟨hperm, _⟩, hout⟩
      · exfalso; omega
      · rw [hemp] at hperm
        rw [List.perm_nil.mp hperm, htn, htp] at hout
        simpa using hout
    · rintro rfl
      unfold listOutcome
      rw [hcp]
      refine Or.inr ⟨by omega, [], ⟨?_, rfl⟩, ?_⟩
      · rw [hemp]
      · rw [htn, htp]
        simp
  · intro pp sp qp out h
    exact h

theorem C10_no_clamp_when_empty_witness :
    listOutcome [⟨1, 9, "x", "y", none, 0⟩] 7 4 "newest" ""
      (some ⟨[], 4, 0, 0, "newest", ""⟩) :=
  ((C10_no_clamp_when_empty [⟨1, 9, "x", "y", none, 0⟩] 7 4 "newest" ""
    (by decide) (by decide)).1 (some ⟨[], 4, 0, 0, "newest", ""⟩)).mpr rfl

/-- C3: pagination totals and clamping — in every rendered listing,
totalNotes is the size of the owner-scoped and search-filtered set before
slicing, totalPages is ceil(totalNotes / 5), the number of items on the
page is min 5 (totalNotes - (currentPage - 1) * 5); and when the requested
page exceeds totalPages while totalPages > 0, the response exists (no error),
its currentPage is totalPages, its items are non-empty, and it is an
admissible outcome of requesting page totalPages itself — the last page's
content. -/
theorem C3_pagination (store : List Note) (userid : Nat) (page : Int)
    (sort search : String) (out : Option Listing)
    (h : listOutcome store userid page sort search out) :
    (∀ L, out = some L →
      L.totalNotes = (store.filter (noteMatches userid search)).length ∧
      L.totalPages = (L.totalNotes + 4) / 5 ∧
      L.notes.length = min 5 (L.totalNotes - ((L.currentPage - 1) * 5).toNat)) ∧
    (0 < totalPagesOf store userid search →
      (totalPagesOf store userid search : Int) < page →
      ∃ L, out = some L ∧
        L.currentPage = (totalPagesOf store userid search : Int) ∧
        L.notes ≠ [] ∧
        listOutcome store userid (totalPagesOf store userid search : Int)
          sort search out) := by
  constructor
  · intro L hL
    unfold listOutcome at h
    rcases h with ⟨_, hnone⟩ | ⟨_, sorted, ⟨hperm, _⟩, hout⟩
    · rw [hL] at hnone
      cases hnone
    · rw [hL] at hout
      injection hout with hout
      subst hout
      refine ⟨rfl, rfl, ?_⟩
      rw [List.length_take, List.length_drop, hperm.length_eq]
      rfl
  · intro htp hlt
    have hcp : clampedPage store userid search page =
        (totalPagesOf store userid search : Int) := by
      unfold clampedPage
      rw [if_pos ⟨htp, hlt⟩]
    have hcp2 : clampedPage store userid search
        (totalPagesOf store userid search : Int) =
        (totalPagesOf store userid search : Int) := by
      unfold clampedPage
      split <;> omega
    unfold listOutcome at h
    rw [hcp] at h
    rcases h with ⟨hneg, _⟩ | ⟨hskip, sorted, hso, hout⟩
    · exfalso
      omega
    · refine ⟨_, hout, rfl, ?_, ?_⟩
      · refine List.length_pos.mp ?_
        rw [List.length_take, List.length_drop, hso.1.length_eq]
        refine Nat.lt_min.mpr ⟨by norm_num, ?_⟩
        have htpdef : totalPagesOf store userid search =
            (totalNotesOf store userid search + 4) / 5 := rfl
        have htndef : totalNotesOf store userid search =
            (store.filter (noteMatches userid search)).length := rfl
        omega
      · unfold listOutcome
        rw [hcp2]
        exact Or.inr ⟨hskip, sorted, hso, hout⟩

theorem C3_pagination_witness :
    (12 : Nat) = (([⟨1, 7, "", "", none, 1⟩, ⟨2, 7, "", "", none, 2⟩,
      ⟨3, 7, "", "", none, 3⟩, ⟨4, 7, "", "", none, 4⟩, ⟨5, 7, "", "", none, 5⟩,
      ⟨6, 7, "", "", none, 6⟩, ⟨7, 7, "", "", none, 7⟩, ⟨8, 7, "", "", none, 8⟩,
      ⟨9, 7, "", "", none, 9⟩, ⟨10, 7, "", "", none, 10⟩, ⟨11, 7, "", "", none, 11⟩,
      ⟨12, 7, "", "", none, 12⟩] : List Note).filter (noteMatches 7 "")).length ∧
    (3 : Nat) = (12 + 4) / 5 ∧
    (2 : Nat) = min 5 (12 - (((3 : Int) - 1) * 5).toNat) ∧
    (5 : Nat) = min 5 (12 - (((1 : Int) - 1) * 5).toNat) ∧
    listOutcome [⟨1, 7, "", "", none, 1⟩, ⟨2, 7, "", "", none, 2⟩,
      ⟨3, 7, "", "", none, 3⟩, ⟨4, 7, "", "", none, 4⟩, ⟨5, 7, "", "", none, 5⟩,
      ⟨6, 7, "", "", none, 6⟩, ⟨7, 7, "", "", none, 7⟩, ⟨8, 7, "", "", none, 8⟩,
      ⟨9, 7, "", "", none, 9⟩, ⟨10, 7, "", "", none, 10⟩, ⟨11, 7, "", "", none, 11⟩,
      ⟨12, 7, "", "", none, 12⟩] 7 3 "newest" ""
      (some ⟨[⟨2, 7, "", "", none, 2⟩, ⟨1, 7, "", "", none, 1⟩], 3, 3, 12,
        "newest", ""⟩) := by
  have hyp5 : listOutcome [⟨1, 7, "", "", none, 1⟩, ⟨2, 7, "", "", none, 2⟩,
      ⟨3, 7, "", "", none, 3⟩, ⟨4, 7, "", "", none, 4⟩, ⟨5, 7, "", "", none, 5⟩,
      ⟨6, 7, "", "", none, 6⟩, ⟨7, 7, "", "", none, 7⟩, ⟨8, 7, "", "", none, 8⟩,
      ⟨9, 7, "", "", none, 9⟩, ⟨10, 7, "", "", none, 10⟩, ⟨11, 7, "", "", none, 11⟩,
      ⟨12, 7, "", "", none, 12⟩] 7 5 "newest" ""
      (some ⟨[⟨2, 7, "", "", none, 2⟩, ⟨1, 7, "", "", none, 1⟩], 3, 3, 12,
        "newest", ""⟩) := by
    unfold listOutcome
    exact Or.inr ⟨by decide,
      [⟨12, 7, "", "", none, 12⟩, ⟨11, 7, "", "", none, 11⟩, ⟨10, 7, "", "", none, 10⟩,
        ⟨9, 7, "", "", none, 9⟩, ⟨8, 7, "", "", none, 8⟩, ⟨7, 7, "", "", none, 7⟩,
        ⟨6, 7, "", "", none, 6⟩, ⟨5, 7, "", "", none, 5⟩, ⟨4, 7, "", "", none, 4⟩,
        ⟨3, 7, "", "", none, 3⟩, ⟨2, 7, "", "", none, 2⟩, ⟨1, 7, "", "", none, 1⟩],
      ⟨by decide, by decide⟩, by decide⟩
  have hyp1 : listOutcome [⟨1, 7, "", "", none, 1⟩, ⟨2, 7, "", "", none, 2⟩,
      ⟨3, 7, "", "", none, 3⟩, ⟨4, 7, "", "", none, 4⟩, ⟨5, 7, "", "", none, 5⟩,
      ⟨6, 7, "", "", none, 6⟩, ⟨7, 7, "", "", none, 7⟩, ⟨8, 7, "", "", none, 8⟩,
      ⟨9, 7, "", "", none, 9⟩, ⟨10, 7, "", "", none, 10⟩, ⟨11, 7, "", "", none, 11⟩,
      ⟨12, 7, "", "", none, 12⟩] 7 1 "newest" ""
      (some ⟨[⟨12, 7, "", "", none, 12⟩, ⟨11, 7, "", "", none, 11⟩,
        ⟨10, 7, "", "", none, 10⟩, ⟨9, 7, "", "", none, 9⟩, ⟨8, 7, "", "", none, 8⟩],
        1, 3, 12, "newest", ""⟩) := by
    unfold listOutcome
    exact Or.inr ⟨by decide,
      [⟨12, 7, "", "", none, 12⟩, ⟨11, 7, "", "", none, 11⟩, ⟨10, 7, "", "", none, 10⟩,
        ⟨9, 7, "", "", none, 9⟩, ⟨8, 7, "", "", none, 8⟩, ⟨7, 7, "", "", none, 7⟩,
        ⟨6, 7, "", "", none, 6⟩, ⟨5, 7, "", "", none, 5⟩, ⟨4, 7, "", "", none, 4⟩,
        ⟨3, 7, "", "", none, 3⟩, ⟨2, 7, "", "", none, 2⟩, ⟨1, 7, "", "", none, 1⟩],
      ⟨by decide, by decide⟩, by decide⟩
  have H5 := C3_pagination _ 7 5 "newest" "" _ hyp5
  have H1 := C3_pagination _ 7 1 "newest" "" _ hyp1
  obtain ⟨ha, hb, hc⟩ := H5.1 _ rfl
  obtain ⟨_, _, hd⟩ := H1.1 _ rfl
  obtain ⟨L, hL, hcur, hne, hlist⟩ := H5.2 (by decide) (by decide)
  exact ⟨ha, hb, hc, hd, hlist⟩

/-- C2 (code bug): the handler builds `new RegExp(search, 'i')` from the raw
search term, so the term is interpreted as a regex pattern, not as a plain
substring: the term "gr.cery" (with `.` a wildcard) returns the note titled
"Grocery List" even though "gr.cery" is a case-insensitive substring of
neither the title nor the content; on purely literal terms the code does
behave as the claimed case-insensitive substring match (the claim's own
examples "grocery", "GROCERY", "list", "groceries" all check out). -/
theorem C2_search_regex_bug :
    searchTermOf (some "gr.cery") = "gr.cery" ∧
    specContainsCI "gr.cery" "Grocery List" = false ∧
    specContainsCI "gr.cery" "Some content" = false ∧
    listOutcome [⟨1, 7, "Grocery List", "Some content", none, 5⟩] 7 1 "newest"
      "gr.cery"
      (some ⟨[⟨1, 7, "Grocery List", "Some content", none, 5⟩], 1, 1, 1,
        "newest", "gr.cery"⟩) ∧
    regexTest (compileRegExp "grocery") "Grocery List" = true ∧
    regexTest (compileRegExp "GROCERY") "Grocery List" = true ∧
    regexTest (compileRegExp "list") "Grocery List" = true ∧
    regexTest (compileRegExp "groceries") "Grocery List" = false ∧
    specContainsCI "grocery" "Grocery List" = true ∧
    specContainsCI "GROCERY" "Grocery List" = true ∧
    specContainsCI "list" "Grocery List" = true ∧
    specContainsCI "groceries" "Grocery List" = false := by
  refine ⟨by decide, by decide, by decide, ?_, by decide, by decide, by decide,
    by decide, by decide, by decide, by decide, by decide⟩
  unfold listOutcome
  exact Or.inr ⟨by decide, [⟨1, 7, "Grocery List", "Some content", none, 5⟩],
    ⟨by decide, by decide⟩, by decide⟩

/-- C9 (code bug): the listing query sorts on `createdAt` alone, with no
secondary tie-break key, so for two same-owner notes with equal creation
times both orders are admissible outcomes of the very same call: repeated
calls with identical parameters and unchanged data may return different
slices, contradicting the claimed deterministic, stably tie-broken
ordering. -/
theorem C9_tie_nondeterminism :
    listOutcome [⟨1, 7, "a", "", none, 10⟩, ⟨2, 7, "b", "", none, 10⟩] 7 1
      "newest" ""
      (some ⟨[⟨1, 7, "a", "", none, 10⟩, ⟨2, 7, "b", "", none, 10⟩], 1, 1, 2,
        "newest", ""⟩) ∧
    listOutcome [⟨1, 7, "a", "", none, 10⟩, ⟨2, 7, "b", "", none, 10⟩] 7 1
      "newest" ""
      (some ⟨[⟨2, 7, "b", "", none, 10⟩, ⟨1, 7, "a", "", none, 10⟩], 1, 1, 2,
        "newest", ""⟩) ∧
    (⟨[⟨1, 7, "a", "", none, 10⟩, ⟨2, 7, "b", "", none, 10⟩], 1, 1, 2,
      "newest", ""⟩ : Listing) ≠
      ⟨[⟨2, 7, "b", "", none, 10⟩, ⟨1, 7, "a", "", none, 10⟩], 1, 1, 2,
        "newest", ""⟩ := by
  refine ⟨?_, ?_, by decide⟩
  · unfold listOutcome
    exact Or.inr ⟨by decide,
      [⟨1, 7, "a", "", none, 10⟩, ⟨2, 7, "b", "", none, 10⟩],
      ⟨by decide, by decide⟩, by decide⟩
  · unfold listOutcome
    exact Or.inr ⟨by decide,
      [⟨2, 7, "b", "", none, 10⟩, ⟨1, 7, "a", "", none, 10⟩],
      ⟨by decide, by decide⟩, by decide⟩

end NotesApp
